import Mathlib

/-!
Shallow embedding of the role-gated authorization and approval workflow of the
SEMKAT real-estate application: the `user_roles` / `profiles` /
`agent_applications` tables and their row-level-security policies from the
migration `20251216070958_…sql`, the `handleApplicationAction` approval handler
from `src/pages/Admin.tsx`, and the client session/role context
(`AuthProvider` / `fetchUserRole` / `useAuth`) from `AuthContext`.

Principals (auth user ids) are modelled as `Nat`, timestamps as `Nat`,
tables as lists of rows.
-/

namespace Semkat

/-- The `app_role` enum from the migration: `('admin', 'agent', 'user')`. -/
inductive Role
  | admin
  | agent
  | user
deriving DecidableEq, Repr

/-- The precedence rank used by `get_user_role`'s
`ORDER BY CASE role WHEN 'admin' THEN 1 WHEN 'agent' THEN 2 ELSE 3 END`. -/
def Role.rank : Role → Nat
  | .admin => 1
  | .agent => 2
  | .user => 3

/-- A row of `public.user_roles`:
`(id, user_id, role, created_at, approved_by, approved_at)` with the
constraint `UNIQUE (user_id, role)` (the surrogate `id` and `created_at` are
omitted; no claim depends on them). -/
structure RoleRow where
  user_id : Nat
  role : Role
  approved_by : Option Nat := none
  approved_at : Option Nat := none
deriving DecidableEq, Repr

/-- `public.has_role(_user_id, _role)`: `SELECT EXISTS (SELECT 1 FROM
public.user_roles WHERE user_id = _user_id AND role = _role)`.  Being
`SECURITY DEFINER`, it reads the raw table directly: its argument here is the
full `user_roles` table, not a policy-filtered view, which is exactly the
non-recursion property the policies below rely on. -/
def has_role (rows : List RoleRow) (uid : Nat) (r : Role) : Bool :=
  rows.any fun row => decide (row.user_id = uid ∧ row.role = r)

/-- The multiset of roles held by `uid`: the body of `get_user_role`'s
`SELECT role FROM public.user_roles WHERE user_id = _user_id`. -/
def rolesOf (rows : List RoleRow) (uid : Nat) : List Role :=
  (rows.filter fun row => decide (row.user_id = uid)).map (·.role)

/-- `ORDER BY rank LIMIT 1` over a list of roles: the minimum-rank element,
`none` on the empty result set (a scalar `sql` function with no rows
returns NULL). -/
def minByRank : List Role → Option Role
  | [] => none
  | r :: rs =>
    match minByRank rs with
    | none => some r
    | some b => if r.rank ≤ b.rank then some r else some b

/-- `public.get_user_role(_user_id)`: the held role of minimum rank under
`admin > agent > user`, NULL when the principal has no `user_roles` row. -/
def get_user_role (rows : List RoleRow) (uid : Nat) : Option Role :=
  minByRank (rolesOf rows uid)

/-- The two SELECT policies on `public.user_roles`:
"Users can view their own roles" (`auth.uid() = user_id`) OR
"Admins can view all roles" (`public.has_role(auth.uid(), 'admin')`).
`has_role` is evaluated on the raw table (SECURITY DEFINER), never through
this policy itself. -/
def canSelectRoleRow (rows : List RoleRow) (actor : Nat) (row : RoleRow) : Bool :=
  decide (actor = row.user_id) || has_role rows actor .admin

/-- The `user_roles` rows a SELECT by `actor` returns under row-level
security: the raw table filtered by the SELECT policies. -/
def visibleRoleRows (rows : List RoleRow) (actor : Nat) : List RoleRow :=
  rows.filter (canSelectRoleRow rows actor)

/-- Status of an `agent_applications` row:
`CHECK (status IN ('pending', 'approved', 'rejected'))`. -/
inductive AppStatus
  | pending
  | approved
  | rejected
deriving DecidableEq, Repr

/-- A row of `public.agent_applications` (the identity/contact columns
`full_name`, `phone`, `email`, `company`, `license_number`,
`experience_years`, `notes`, `created_at` are omitted; no claim depends
on them). -/
structure Application where
  id : Nat
  user_id : Nat
  status : AppStatus
  reviewed_by : Option Nat := none
  reviewed_at : Option Nat := none
deriving DecidableEq, Repr

/-- A row of `public.profiles` (only the columns the claims mention). -/
structure Profile where
  user_id : Nat
  full_name : Option String := none
deriving DecidableEq, Repr

/-- The backing store: `auth.users` plus the three public tables. -/
structure DB where
  users : List Nat := []
  profiles : List Profile := []
  userRoles : List RoleRow := []
  applications : List Application := []
deriving DecidableEq, Repr

/-- The `.update({status, reviewed_by, reviewed_at}).eq('id', applicationId)`
call of `handleApplicationAction`, under the single UPDATE policy on
`agent_applications` ("Admins can update applications",
`USING public.has_role(auth.uid(), 'admin')`): a row is modified only when it
matches the `eq` filter AND passes the policy; a non-admin's update matches no
row and leaves the table untouched. -/
def rlsUpdateApplications (db : DB) (actor : Nat) (applicationId : Nat)
    (st : AppStatus) (now : Nat) : DB :=
  { db with
    applications := db.applications.map fun app =>
      if decide (app.id = applicationId) && has_role db.userRoles actor .admin then
        { app with status := st, reviewed_by := some actor, reviewed_at := some now }
      else app }

/-- Outcome of the `user_roles` insert as seen by the client. -/
inductive InsertOutcome
  | ok
  | dupConflict
  | otherError
deriving DecidableEq, Repr

/-- The `.from('user_roles').insert({user_id, role, approved_by, approved_at})`
call: the INSERT policy "Admins can insert roles"
(`WITH CHECK public.has_role(auth.uid(), 'admin')`) and the
`UNIQUE (user_id, role)` constraint, with `transientFail` injecting a
non-conflict backend failure (network error, etc.). -/
def insertUserRole (rows : List RoleRow) (actor : Nat) (row : RoleRow)
    (transientFail : Bool) : List RoleRow × InsertOutcome :=
  if transientFail then (rows, .otherError)
  else if has_role rows actor .admin then
    if rows.any (fun r => decide (r.user_id = row.user_id ∧ r.role = row.role)) then
      (rows, .dupConflict)
    else (rows ++ [row], .ok)
  else (rows, .otherError)

/-- What `handleApplicationAction` reports: `toast.success` or `toast.error`. -/
inductive ActionResult
  | success
  | failure
deriving DecidableEq, Repr

/-- `handleApplicationAction(applicationId, userId, action)` from
`src/pages/Admin.tsx`, acting as `actor` on `db`.  Two separate backend
calls, no transaction: (1) update the application's status/reviewed_by/
reviewed_at; (2) when `action = approved`, insert the `{userId, agent}` role
row.  A duplicate-key conflict on (2) is swallowed
(`roleError.message.includes('duplicate')`); any other error on (2) is thrown
into the catch block — which only toasts, so the already-committed status
update from (1) is kept.  `updateFail` / `insertFail` inject transient
backend failures of the two calls. -/
def handleApplicationAction (db : DB) (actor : Nat)
    (applicationId userId : Nat) (action : AppStatus) (now : Nat)
    (updateFail insertFail : Bool) : DB × ActionResult :=
  if updateFail then (db, .failure)
  else
    let db1 := rlsUpdateApplications db actor applicationId action now
    if action = .approved then
      match insertUserRole db1.userRoles actor
          { user_id := userId, role := .agent,
            approved_by := some actor, approved_at := some now } insertFail with
      | (rows2, .ok) => ({ db1 with userRoles := rows2 }, .success)
      | (_, .dupConflict) => (db1, .success)
      | (_, .otherError) => (db1, .failure)
    else (db1, .success)

/-- `public.handle_new_user()` together with the `auth.users` insert that
fires it: the trigger `on_auth_user_created` runs `AFTER INSERT ON auth.users
FOR EACH ROW` inside the inserting transaction, adding one `profiles` row and
one `{user_id, role: 'user'}` `user_roles` row; a single atomic step here. -/
def createUser (db : DB) (uid : Nat) (fullName : Option String) : DB :=
  { db with
    users := db.users ++ [uid]
    profiles := db.profiles ++ [{ user_id := uid, full_name := fullName }]
    userRoles := db.userRoles ++ [{ user_id := uid, role := .user }] }

example : has_role [⟨1, .admin, none, none⟩] 1 .admin = true := by decide
example : get_user_role [⟨1, .user, none, none⟩, ⟨1, .agent, none, none⟩] 1 = some .agent := by
  decide
example : get_user_role ([] : List RoleRow) 0 = none := by decide
example : visibleRoleRows [⟨1, .admin, none, none⟩, ⟨2, .user, none, none⟩] 1 =
    [⟨1, .admin, none, none⟩, ⟨2, .user, none, none⟩] := by decide
example : visibleRoleRows [⟨1, .admin, none, none⟩, ⟨2, .user, none, none⟩] 2 =
    [⟨2, .user, none, none⟩] := by decide

/-- Outcome of the `supabase.rpc('get_user_role', …)` call as observed by
`fetchUserRole`: success with non-null data, success with null/absent data,
an error response, or an exception escaping the await. -/
inductive RpcOutcome
  | ok (r : Role)
  | okNull
  | rpcError
  | thrown
deriving DecidableEq, Repr

/-- The role `fetchUserRole` stores for a resolved rpc call:
`if (!error && data) setRole(data) else setRole('user')`, and the catch
branch `setRole('user')`. -/
def fetchUserRole : RpcOutcome → Role
  | .ok r => r
  | .okNull => .user
  | .rpcError => .user
  | .thrown => .user

/-- The `AuthProvider` state from `AuthContext`: the four `useState` cells,
plus a count of role fetches that have been scheduled (by the
`setTimeout(() => fetchUserRole(...), 0)` in the listener or the
`fetchUserRole` call in the `getSession` continuation) and not yet
resolved. -/
structure AuthState where
  user : Option Nat := none
  session : Option Nat := none
  role : Option Role := none
  loading : Bool := true
  pendingFetches : Nat := 0
deriving DecidableEq, Repr

/-- The state at `AuthProvider` mount. -/
def initialAuthState : AuthState := {}

/-- The `onAuthStateChange` event kinds the code distinguishes:
`"SIGNED_OUT"` versus everything else. -/
inductive AuthChangeEvent
  | signedIn
  | signedOut
  | tokenRefreshed
deriving DecidableEq, Repr

/-- One turn of the event loop inside `AuthProvider`: an
`onAuthStateChange` callback, the resolution of a previously scheduled
`fetchUserRole`, or the `getSession().then` continuation. -/
inductive AuthEvent
  | authChange (ev : AuthChangeEvent) (sess : Option Nat)
  | fetchResolves (uid : Nat) (o : RpcOutcome)
  | sessionResolves (sess : Option Nat)
deriving DecidableEq, Repr

/-- The `AuthProvider` transition function, line by line from the source:
on `authChange`, `setSession(newSession); setUser(newSession?.user ?? null)`,
then on SIGNED_OUT clear user/session/role, otherwise schedule a role fetch
when a user is present; `setLoading(false)` in all cases.  On a fetch
resolution, `setRole` with `fetchUserRole`'s result — unconditionally: the
code carries no fetch generation counter or cancellation, so any resolving
fetch writes the role.  On `sessionResolves`, set session/user, start a
fetch when a user is present, and clear `loading`. -/
def step (s : AuthState) : AuthEvent → AuthState
  | .authChange ev sess =>
    let s1 := { s with session := sess, user := sess }
    if ev = .signedOut then
      { s1 with user := none, session := none, role := none, loading := false }
    else
      match sess with
      | some _ => { s1 with pendingFetches := s1.pendingFetches + 1, loading := false }
      | none => { s1 with loading := false }
  | .fetchResolves _ o =>
    { s with role := some (fetchUserRole o), pendingFetches := s.pendingFetches - 1 }
  | .sessionResolves sess =>
    match sess with
    | some _ =>
      { s with session := sess, user := sess,
               pendingFetches := s.pendingFetches + 1, loading := false }
    | none => { s with session := none, user := none, loading := false }

/-- Run a sequence of event-loop turns. -/
def run (s : AuthState) (events : List AuthEvent) : AuthState :=
  events.foldl step s

/-- A trace is valid when every `fetchResolves` turn resolves a fetch that
was actually in flight (scheduled earlier and not yet resolved). -/
def validTrace : AuthState → List AuthEvent → Bool
  | _, [] => true
  | s, e :: es =>
    (match e with
     | .fetchResolves _ _ => decide (0 < s.pendingFetches)
     | _ => true) && validTrace (step s e) es

/-- The context value `useAuth` reads (the reactive fields; the three
callbacks are not part of any claim). -/
structure AuthContextValue where
  user : Option Nat
  session : Option Nat
  role : Option Role
  loading : Bool
deriving DecidableEq, Repr

/-- `useAuth` from `AuthContext`: `useContext` yields the provided value or
`undefined` when no `AuthProvider` is above the caller; in the latter case
the hook throws. -/
def useAuth : Option AuthContextValue → Except String AuthContextValue
  | none => .error "useAuth must be used within AuthProvider"
  | some ctx => .ok ctx

example :
    run initialAuthState
      [.authChange .signedIn (some 2), .fetchResolves 2 (.ok .agent)] =
    { user := some 2, session := some 2, role := some .agent,
      loading := false, pendingFetches := 0 } := by decide

/-! ### Helper lemmas -/

theorem mem_rolesOf {rows : List RoleRow} {uid : Nat} {r : Role} :
    r ∈ rolesOf rows uid ↔ has_role rows uid r = true := by
  simp only [rolesOf, has_role, List.mem_map, List.mem_filter, List.any_eq_true,
    decide_eq_true_eq]
  constructor
  · rintro ⟨row, ⟨hmem, hu⟩, hr⟩
    exact ⟨row, hmem, hu, hr⟩
  · rintro ⟨row, hmem, hu, hr⟩
    exact ⟨row, ⟨hmem, hu⟩, hr⟩

theorem minByRank_eq (l : List Role) :
    minByRank l =
      if Role.admin ∈ l then some Role.admin
      else if Role.agent ∈ l then some Role.agent
      else if Role.user ∈ l then some Role.user
      else none := by
  induction l with
  | nil => rfl
  | cons a as ih =>
    rw [minByRank, ih]
    cases a <;> simp only [List.mem_cons] <;> split_ifs <;>
      simp_all [Role.rank]

theorem list_map_self {α : Type} {l : List α} {f : α → α}
    (h : ∀ a ∈ l, f a = a) : l.map f = l := by
  induction l with
  | nil => rfl
  | cons a as ih =>
    rw [List.map_cons, h a (List.mem_cons_self a as),
      ih fun x hx => h x (List.mem_cons_of_mem a hx)]

/-! ### Claim theorems -/

/-- Claim C2 (amended): `get_user_role` returns the highest-privilege role the
principal holds under the fixed precedence `admin > agent > user`; but when
the principal has no RoleAssignment at all it returns NULL (no role) rather
than defaulting to `user` — the `user` default is applied by the client
(`fetchUserRole`), not by this function. -/
theorem get_user_role_returns_highest (rows : List RoleRow) (uid : Nat) :
    get_user_role rows uid =
      if has_role rows uid .admin then some Role.admin
      else if has_role rows uid .agent then some Role.agent
      else if has_role rows uid .user then some Role.user
      else none := by
  rw [get_user_role, minByRank_eq]
  by_cases h1 : has_role rows uid .admin <;>
    by_cases h2 : has_role rows uid .agent <;>
      by_cases h3 : has_role rows uid .user <;>
        simp [mem_rolesOf, h1, h2, h3]

/-- Claim C2, counterexample to the claim as stated: for a principal with no
RoleAssignment rows, `get_user_role` returns nothing (SQL NULL), not the
`user` role. -/
theorem get_user_role_none_on_empty :
    get_user_role ([] : List RoleRow) 0 = none ∧
    get_user_role ([] : List RoleRow) 0 ≠ some Role.user := by decide

/-- Claim C5: `has_role(p, admin)` is SECURITY DEFINER and reads the raw
`user_roles` table, so evaluating the "Admins can view all roles" SELECT
policy never re-enters the policy itself (in the embedding, `canSelectRoleRow`
calls `has_role` on the raw row list, not on `visibleRoleRows`); consequently
a principal holding exactly the `admin` role reads every RoleAssignment
row. -/
theorem admin_reads_all_role_rows (rows : List RoleRow) (p : Nat)
    (_honly : ∀ r ∈ rows, r.user_id = p → r.role = Role.admin)
    (hadmin : has_role rows p .admin = true) :
    visibleRoleRows rows p = rows := by
  have hall : ∀ row ∈ rows, canSelectRoleRow rows p row = true := by
    intro row _
    simp [canSelectRoleRow, hadmin]
  exact List.filter_eq_self.mpr hall

/-- Witness for C5: principal 1 holds exactly the `admin` role and reads the
whole two-row table, including principal 2's row. -/
theorem admin_reads_all_role_rows_witness :
    (∀ r ∈ ([⟨1, .admin, none, none⟩, ⟨2, .user, none, none⟩] : List RoleRow),
        r.user_id = 1 → r.role = Role.admin) ∧
    has_role [⟨1, .admin, none, none⟩, ⟨2, .user, none, none⟩] 1 .admin = true ∧
    visibleRoleRows [⟨1, .admin, none, none⟩, ⟨2, .user, none, none⟩] 1 =
      [⟨1, .admin, none, none⟩, ⟨2, .user, none, none⟩] :=
  ⟨by decide, by decide, admin_reads_all_role_rows _ _ (by decide) (by decide)⟩

/-- Claim C6: a principal without the `admin` role cannot update any
`agent_applications` row — the UPDATE policy matches no row, so the table
(and in particular every `pending` status) is left unchanged. -/
theorem non_admin_update_denied (db : DB) (actor applicationId : Nat)
    (st : AppStatus) (now : Nat)
    (h : has_role db.userRoles actor .admin = false) :
    rlsUpdateApplications db actor applicationId st now = db := by
  unfold rlsUpdateApplications
  rw [list_map_self]
  intro app _
  simp [h]

/-- A database with one pending application by user 2, who holds
only the `user` role; admin 1 also exists. -/
def pendingDb : DB :=
  { users := [1, 2]
    profiles := []
    userRoles := [⟨1, .admin, none, none⟩, ⟨2, .user, none, none⟩]
    applications := [⟨10, 2, .pending, none, none⟩] }

/-- Witness for C6: principal 2 (role `user`) attempts to approve its own
application 10; nothing changes and the application stays `pending`. -/
theorem non_admin_update_denied_witness :
    has_role pendingDb.userRoles 2 .admin = false ∧
    rlsUpdateApplications pendingDb 2 10 .approved 5 = pendingDb :=
  ⟨by decide, non_admin_update_denied _ _ _ _ _ (by decide)⟩

/-- Claim C7: whenever the role fetch fails (an rpc error response, or an
exception reaching the catch block), the resolved fetch stores `user`, so
after resolution the context's `role` is `some user`, never left `none`. -/
theorem failed_fetch_defaults_to_user (s : AuthState) (u : Nat) (o : RpcOutcome)
    (h : o = .rpcError ∨ o = .thrown) :
    (step s (.fetchResolves u o)).role = some Role.user := by
  rcases h with h | h <;> subst h <;> rfl

/-- Witness for C7: an rpc error resolving against the initial state. -/
theorem failed_fetch_defaults_to_user_witness :
    (RpcOutcome.rpcError = RpcOutcome.rpcError ∨
      RpcOutcome.rpcError = RpcOutcome.thrown) ∧
    (step initialAuthState (.fetchResolves 2 .rpcError)).role = some Role.user :=
  ⟨Or.inl rfl, failed_fetch_defaults_to_user initialAuthState 2 _ (Or.inl rfl)⟩

/-- Claim C9: calling `useAuth` with no `AuthProvider` above it (an absent
context value) always throws the error
"useAuth must be used within AuthProvider". -/
theorem useAuth_outside_provider_throws :
    useAuth none = Except.error "useAuth must be used within AuthProvider" := rfl

/-- Claim C10: when the `get_user_role` rpc completes without an error but
with null/absent data, the client stores the `user` role — the context's
`role` is `some user` after the fetch resolves, never `none`. -/
theorem null_data_defaults_to_user (s : AuthState) (u : Nat) :
    (step s (.fetchResolves u .okNull)).role = some Role.user := rfl

/-- Claim C1: demonstration that the approval transition is NOT atomic.
Admin 1 approves user 2's pending application 10; the status update commits,
then the role insert fails with a non-conflict (transient) error.  The
handler's catch block only reports failure — it cannot roll back the first
call — so the end state has the application marked `approved`, `reviewed_by`
and `reviewed_at` set, and NO agent RoleAssignment for user 2, exactly the
state the claim says can never occur. -/
theorem approval_role_failure_leaves_approved :
    (handleApplicationAction pendingDb 1 10 2 .approved 5 false true).1.applications =
      [⟨10, 2, .approved, some 1, some 5⟩] ∧
    has_role
      (handleApplicationAction pendingDb 1 10 2 .approved 5 false true).1.userRoles
      2 .agent = false ∧
    (handleApplicationAction pendingDb 1 10 2 .approved 5 false true).2 =
      .failure := by decide

/-- A trace in which a role fetch is still in flight when the SIGNED_OUT
notification arrives, and the stale fetch resolves afterwards with the
`agent` role. -/
def staleFetchTrace : List AuthEvent :=
  [.authChange .signedIn (some 2),
   .authChange .signedOut none,
   .fetchResolves 2 (.ok .agent)]

/-- Two overlapping fetches completing out of order: the fetch issued at
sign-in resolves last, after the fetch issued at token refresh has already
stored the newer result. -/
def outOfOrderTrace : List AuthEvent :=
  [.authChange .signedIn (some 2),
   .authChange .tokenRefreshed (some 2),
   .fetchResolves 2 (.ok .admin),
   .fetchResolves 2 (.ok .user)]

/-- Claim C3: demonstration that a stale fetch result is NOT discarded.
On `staleFetchTrace` the context ends with `user = none` but
`role = some agent` — the stale fetch overwrote the `none` set by
SIGNED_OUT, because `fetchUserRole`'s continuation carries no generation
guard.  On `outOfOrderTrace` the final role is the FIRST-issued fetch's
result (`user`), not the most recently issued one (`admin`): the
last-resolving fetch wins, contradicting the most-recently-issued rule. -/
theorem stale_fetch_not_discarded :
    validTrace initialAuthState staleFetchTrace = true ∧
    (run initialAuthState staleFetchTrace).user = none ∧
    (run initialAuthState staleFetchTrace).session = none ∧
    (run initialAuthState staleFetchTrace).role = some Role.agent ∧
    validTrace initialAuthState outOfOrderTrace = true ∧
    (run initialAuthState outOfOrderTrace).role = some Role.user := by decide

/-- A database in which admin 1 has already approved user 2's application 10
(at time 5): the application is `approved` and the `{2, agent}` role row
exists. -/
def approvedDb : DB :=
  { users := [1, 2]
    profiles := []
    userRoles := [⟨1, .admin, none, none⟩, ⟨2, .user, none, none⟩,
                  ⟨2, .agent, some 1, some 5⟩]
    applications := [⟨10, 2, .approved, some 1, some 5⟩] }

/-- Claim C4, counterexample to "the end state is the same": a second
approval of the already-approved application 10 at a later time (9) raises
no error, but it overwrites `reviewed_at` (and `reviewed_by`), so the end
state differs from the state before the second approval. -/
theorem second_approval_changes_reviewed_at :
    (handleApplicationAction approvedDb 1 10 2 .approved 9 false false).1 ≠
      approvedDb ∧
    (handleApplicationAction approvedDb 1 10 2 .approved 9 false false).2 =
      .success := by decide

/-- Claim C4 (amended): a second approval of an already-approved application
raises no error and creates no duplicate agent role row (the duplicate-key
conflict is treated as success); `reviewed_by`/`reviewed_at` are overwritten
with the second reviewer/time, so the end state is unchanged exactly when
those coincide with the recorded review — then the whole action is a
no-op returning success. -/
theorem second_approval_noop (db : DB) (actor applicationId userId now : Nat)
    (hadmin : has_role db.userRoles actor .admin = true)
    (hagent : has_role db.userRoles userId .agent = true)
    (happ : ∀ app ∈ db.applications, app.id = applicationId →
      app.status = .approved ∧ app.reviewed_by = some actor ∧
        app.reviewed_at = some now) :
    handleApplicationAction db actor applicationId userId .approved now
      false false = (db, .success) := by
  have hupd : rlsUpdateApplications db actor applicationId .approved now = db := by
    unfold rlsUpdateApplications
    rw [list_map_self]
    intro app hmem
    obtain ⟨i, u, st, rb, ra⟩ := app
    by_cases hid : i = applicationId
    · obtain ⟨h1, h2, h3⟩ := happ ⟨i, u, st, rb, ra⟩ hmem hid
      simp only at h1 h2 h3
      simp [hid, hadmin, h1, h2, h3]
    · simp [hid]
  have hex : ∃ x ∈ db.userRoles, x.user_id = userId ∧ x.role = Role.agent := by
    simpa [has_role] using hagent
  have hins : insertUserRole db.userRoles actor
      { user_id := userId, role := .agent, approved_by := some actor,
        approved_at := some now } false = (db.userRoles, .dupConflict) := by
    simp [insertUserRole, hadmin, hex]
  simp [handleApplicationAction, hupd, hins]

/-- Witness for C4: repeating the recorded review (admin 1, time 5) on
`approvedDb` returns success and leaves the database exactly as it was. -/
theorem second_approval_noop_witness :
    has_role approvedDb.userRoles 1 .admin = true ∧
    has_role approvedDb.userRoles 2 .agent = true ∧
    (∀ app ∈ approvedDb.applications, app.id = 10 →
      app.status = .approved ∧ app.reviewed_by = some 1 ∧
        app.reviewed_at = some 5) ∧
    handleApplicationAction approvedDb 1 10 2 .approved 5 false false =
      (approvedDb, .success) :=
  ⟨by decide, by decide, by decide,
    second_approval_noop approvedDb 1 10 2 5 (by decide) (by decide) (by decide)⟩

/-- Claim C8: creating a principal fires `handle_new_user` in the same
transaction (one atomic step of the embedding), after which exactly one
Profile row and exactly one `user`-role RoleAssignment exist for the new
principal — provided the principal is new (no prior rows). -/
theorem signup_creates_profile_and_user_role (db : DB) (uid : Nat)
    (name : Option String)
    (hprof : ∀ p ∈ db.profiles, p.user_id ≠ uid)
    (hrole : ∀ r ∈ db.userRoles, r.user_id ≠ uid) :
    ((createUser db uid name).profiles.countP
        (fun p => decide (p.user_id = uid)) = 1) ∧
    ((createUser db uid name).userRoles.countP
        (fun r => decide (r.user_id = uid ∧ r.role = Role.user)) = 1) ∧
    ((createUser db uid name).userRoles.countP
        (fun r => decide (r.user_id = uid)) = 1) := by
  have h1 : db.profiles.countP (fun p => decide (p.user_id = uid)) = 0 := by
    rw [List.countP_eq_zero]
    intro a ha
    simpa using hprof a ha
  have h2 : db.userRoles.countP
      (fun r => decide (r.user_id = uid ∧ r.role = Role.user)) = 0 := by
    rw [List.countP_eq_zero]
    intro a ha
    simp only [decide_eq_true_eq, not_and]
    intro hu
    exact absurd hu (hrole a ha)
  have h3 : db.userRoles.countP (fun r => decide (r.user_id = uid)) = 0 := by
    rw [List.countP_eq_zero]
    intro a ha
    simpa using hrole a ha
  refine ⟨?_, ?_, ?_⟩
  · show (db.profiles ++ [({ user_id := uid, full_name := name } : Profile)]).countP
        (fun p => decide (p.user_id = uid)) = 1
    rw [List.countP_append, h1]
    simp
  · show (db.userRoles ++ [({ user_id := uid, role := Role.user } : RoleRow)]).countP
        (fun r => decide (r.user_id = uid ∧ r.role = Role.user)) = 1
    rw [List.countP_append, h2]
    simp
  · show (db.userRoles ++ [({ user_id := uid, role := Role.user } : RoleRow)]).countP
        (fun r => decide (r.user_id = uid)) = 1
    rw [List.countP_append, h3]
    simp

/-- The empty backing store. -/
def emptyDb : DB := {}

/-- Witness for C8: signing up fresh principal 7 in the empty store yields
exactly one profile and one `user`-role row for 7. -/
theorem signup_creates_profile_and_user_role_witness :
    (∀ p ∈ emptyDb.profiles, p.user_id ≠ 7) ∧
    (∀ r ∈ emptyDb.userRoles, r.user_id ≠ 7) ∧
    (((createUser emptyDb 7 (some "Ada")).profiles.countP
        (fun p => decide (p.user_id = 7)) = 1) ∧
     ((createUser emptyDb 7 (some "Ada")).userRoles.countP
        (fun r => decide (r.user_id = 7 ∧ r.role = Role.user)) = 1) ∧
     ((createUser emptyDb 7 (some "Ada")).userRoles.countP
        (fun r => decide (r.user_id = 7)) = 1)) :=
  ⟨by decide, by decide,
    signup_creates_profile_and_user_role emptyDb 7 (some "Ada")
      (by decide) (by decide)⟩

end Semkat
